import Mathlib

/-!
Verification development for the go-web-template repository.

The Go sources are shallowly embedded as pure Lean functions over explicit
state: the relational store is an association list keyed by the numeric id,
the Redis cache is an association list from string keys to cached values
with their TTLs, and every service call returns its result together with
the updated store, the updated cache and a trace of the store/cache
operations it performed, in program order.

Serialized JSON bytes are abstracted as an inductive `CacheVal`: a
well-formed serialization of a user or of a product, or malformed bytes.
`encoding/json` round-trips a marshalled value and fails on malformed
bytes, which is exactly what the abstraction provides.  bcrypt hashing is
abstracted as an injective tagging function (the hash value itself is
never inspected by the code under verification).  The float64 product
price is modelled as an integer-valued numeric: the code only ever
compares it against zero.
-/

namespace GoWeb

/-- internal/model/user.go: the User entity (gorm timestamps omitted,
they are never read by the code under verification). -/
structure User where
  id : Nat
  name : String
  email : String
  password : String
  age : Int
deriving DecidableEq, Repr

/-- internal/model/product.go: the Product entity. -/
structure Product where
  id : Nat
  name : String
  description : String
  price : Int
  stock : Int
deriving DecidableEq, Repr

/-- internal/model/user.go: CreateUserRequest. -/
structure CreateUserRequest where
  name : String
  email : String
  password : String
  age : Int
deriving DecidableEq, Repr

/-- internal/model/user.go: UpdateUserRequest (absent JSON fields decode
to the Go zero value of the field type). -/
structure UpdateUserRequest where
  name : String
  email : String
  password : String
  age : Int
deriving DecidableEq, Repr

/-- internal/model/product.go: CreateProductRequest. -/
structure CreateProductRequest where
  name : String
  description : String
  price : Int
  stock : Int
deriving DecidableEq, Repr

/-- internal/model/product.go: UpdateProductRequest. -/
structure UpdateProductRequest where
  name : String
  description : String
  price : Int
  stock : Int
deriving DecidableEq, Repr

/-- Abstraction of the byte strings stored in Redis: either the JSON
serialization of an entity, or bytes that do not deserialize. -/
inductive CacheVal where
  | userJson (u : User)
  | productJson (p : Product)
  | malformed (raw : String)
deriving DecidableEq, Repr

/-- json.Marshal on a User (total: marshalling a User struct cannot fail). -/
def jsonMarshalUser (u : User) : CacheVal := .userJson u

/-- json.Unmarshal of cached bytes into a User; fails on anything that is
not a marshalled User. -/
def jsonUnmarshalUser : CacheVal → Option User
  | .userJson u => some u
  | _ => none

/-- json.Marshal on a Product. -/
def jsonMarshalProduct (p : Product) : CacheVal := .productJson p

/-- json.Unmarshal of cached bytes into a Product. -/
def jsonUnmarshalProduct : CacheVal → Option Product
  | .productJson p => some p
  | _ => none

/-- One Redis entry: the stored bytes plus the TTL (in seconds) they were
stored with. -/
structure CacheEntry where
  val : CacheVal
  ttlSeconds : Nat
deriving DecidableEq, Repr

/-- The Redis keyspace. -/
abbrev Cache := List (String × CacheEntry)

/-- Redis glob matching, as used by the KEYS command (only the `*`
wildcard occurs in this repository's patterns): `*` absorbs any sequence
of characters, so the rest of the pattern must match some suffix of the
subject. -/
def globMatch : List Char → List Char → Bool
  | [], cs => cs.isEmpty
  | '*' :: ps, cs => cs.tails.any (fun suffix => globMatch ps suffix)
  | _ :: _, [] => false
  | p :: ps, c :: cs => p == c && globMatch ps cs

/-- Redis GET. -/
def cacheFetch (c : Cache) (k : String) : Option CacheVal :=
  (c.find? (fun e => e.1 == k)).map (fun e => e.2.val)

/-- Redis GET, also exposing the TTL the entry was stored with. -/
def cacheFetchEntry (c : Cache) (k : String) : Option CacheEntry :=
  (c.find? (fun e => e.1 == k)).map Prod.snd

/-- Redis SET with TTL. -/
def cacheStore (c : Cache) (k : String) (v : CacheVal) (ttl : Nat) : Cache :=
  (k, ⟨v, ttl⟩) :: c.filter (fun e => e.1 != k)

/-- Redis DEL of a single key: the argument is a literal key, never a
pattern. -/
def cacheDelKey (c : Cache) (k : String) : Cache :=
  c.filter (fun e => e.1 != k)

/-- Redis KEYS: every key matching the glob pattern. -/
def cacheKeysMatching (c : Cache) (pat : String) : List String :=
  (c.filter (fun e => globMatch pat.data e.1.data)).map Prod.fst

/-- Redis DEL of several literal keys. -/
def cacheDelKeys (c : Cache) (ks : List String) : Cache :=
  c.filter (fun e => !(ks.contains e.1))

/-- Errors returned by the gorm-backed repositories: the record-not-found
condition of First, or any other database failure. -/
inductive StoreErr where
  | recordNotFound
  | internalErr
deriving DecidableEq, Repr

/-- Errors returned by the service layer to the handlers. -/
inductive SvcErr where
  | store (e : StoreErr)
  | emailExists
deriving DecidableEq, Repr

/-- Fault injection for the external collaborators: whether each store
call fails with a database error on this run, and whether the best-effort
cache write takes effect.  The services never inspect these directly;
they only see the resulting errors. -/
structure FaultEnv where
  userGetFails : Bool
  userGetByEmailFails : Bool
  userCreateFails : Bool
  userUpdateFails : Bool
  userDeleteFails : Bool
  userListFails : Bool
  userCountFails : Bool
  productGetFails : Bool
  productCreateFails : Bool
  productUpdateFails : Bool
  productDeleteFails : Bool
  cacheSetOk : Bool
deriving DecidableEq, Repr

/-- Point lookup in a store table. -/
def storeLookup {α : Type} (rows : List (Nat × α)) (id : Nat) : Option α :=
  (rows.find? (fun r => r.1 == id)).map Prod.snd

/-- The primary key gorm assigns to a freshly inserted row. -/
def nextRowId {α : Type} (rows : List (Nat × α)) : Nat :=
  (rows.map Prod.fst).foldr Nat.max 0 + 1

/-- internal/repository/user.go GetByID: First by primary key;
record-not-found when the id is absent. -/
def repoUserGetByID (failing : Bool) (rows : List (Nat × User)) (id : Nat) :
    Except StoreErr User :=
  if failing then .error .internalErr
  else
    match storeLookup rows id with
    | some u => .ok u
    | none => .error .recordNotFound

/-- internal/repository/user.go GetByEmail: First on the email column. -/
def repoUserGetByEmail (failing : Bool) (rows : List (Nat × User)) (email : String) :
    Except StoreErr User :=
  if failing then .error .internalErr
  else
    match rows.find? (fun r => r.2.email == email) with
    | some r => .ok r.2
    | none => .error .recordNotFound

/-- internal/repository/user.go Create: inserts the row, assigning the
primary key. -/
def repoUserCreate (failing : Bool) (rows : List (Nat × User)) (u : User) :
    Except StoreErr (List (Nat × User) × User) :=
  if failing then .error .internalErr
  else
    let assigned := { u with id := nextRowId rows }
    .ok (rows ++ [(assigned.id, assigned)], assigned)

/-- internal/repository/user.go Update: Save writes the full row back
under its primary key. -/
def repoUserUpdate (failing : Bool) (rows : List (Nat × User)) (u : User) :
    Except StoreErr (List (Nat × User)) :=
  if failing then .error .internalErr
  else .ok (rows.map (fun r => if r.1 == u.id then (u.id, u) else r))

/-- internal/repository/user.go Delete: deletes by primary key (no error
when the id is already absent). -/
def repoUserDelete (failing : Bool) (rows : List (Nat × User)) (id : Nat) :
    Except StoreErr (List (Nat × User)) :=
  if failing then .error .internalErr
  else .ok (rows.filter (fun r => r.1 != id))

/-- internal/repository/product.go GetByID. -/
def repoProductGetByID (failing : Bool) (rows : List (Nat × Product)) (id : Nat) :
    Except StoreErr Product :=
  if failing then .error .internalErr
  else
    match storeLookup rows id with
    | some p => .ok p
    | none => .error .recordNotFound

/-- internal/repository/product.go Create. -/
def repoProductCreate (failing : Bool) (rows : List (Nat × Product)) (p : Product) :
    Except StoreErr (List (Nat × Product) × Product) :=
  if failing then .error .internalErr
  else
    let assigned := { p with id := nextRowId rows }
    .ok (rows ++ [(assigned.id, assigned)], assigned)

/-- internal/repository/product.go Update. -/
def repoProductUpdate (failing : Bool) (rows : List (Nat × Product)) (p : Product) :
    Except StoreErr (List (Nat × Product)) :=
  if failing then .error .internalErr
  else .ok (rows.map (fun r => if r.1 == p.id then (p.id, p) else r))

/-- internal/repository/product.go Delete. -/
def repoProductDelete (failing : Bool) (rows : List (Nat × Product)) (id : Nat) :
    Except StoreErr (List (Nat × Product)) :=
  if failing then .error .internalErr
  else .ok (rows.filter (fun r => r.1 != id))

/-- bcrypt.GenerateFromPassword, abstracted as an injective tagging
function; the code under verification never inspects the hash bytes. -/
def bcryptHash (password : String) : String := "bcrypt$" ++ password

/-- One store or cache interaction, recorded in program order.  Store
mutations carry whether the call succeeded. -/
inductive Ev where
  | storeGetByID (table : String) (id : Nat)
  | storeGetByEmail (email : String)
  | storeCreate (table : String) (ok : Bool)
  | storeUpdate (table : String) (id : Nat) (ok : Bool)
  | storeDelete (table : String) (id : Nat) (ok : Bool)
  | storeList (table : String)
  | storeCount (table : String)
  | cacheGetEv (k : String)
  | cacheSetEv (k : String) (ttl : Nat)
  | cacheDelEv (k : String)
  | cacheKeysEv (pat : String)
  | cacheDelManyEv (ks : List String)
deriving DecidableEq, Repr

/-- Whether the event deletes cache keys. -/
def Ev.isCacheDelete : Ev → Bool
  | .cacheDelEv _ => true
  | .cacheDelManyEv _ => true
  | _ => false

deriving instance DecidableEq for Except

/-- Result of a user-service call that yields a user: the returned value
or error, plus the final store, the final cache and the interaction
trace. -/
structure UserOut where
  result : Except SvcErr User
  rows : List (Nat × User)
  cache : Cache
  trace : List Ev
deriving DecidableEq, Repr

/-- Result of a user-service Delete. -/
structure UserDelOut where
  result : Except SvcErr Unit
  rows : List (Nat × User)
  cache : Cache
  trace : List Ev
deriving DecidableEq, Repr

/-- Result of a product-service call that yields a product. -/
structure ProductOut where
  result : Except SvcErr Product
  rows : List (Nat × Product)
  cache : Cache
  trace : List Ev
deriving DecidableEq, Repr

/-- Result of a product-service Delete. -/
structure ProductDelOut where
  result : Except SvcErr Unit
  rows : List (Nat × Product)
  cache : Cache
  trace : List Ev
deriving DecidableEq, Repr

/-- userService.Create (service/user.go): email-uniqueness check, bcrypt
hash, store insert, then `s.redis.Del(ctx, "users:list:*")` — a DEL of
that literal key. -/
def userServiceCreate (env : FaultEnv) (rows : List (Nat × User)) (cache : Cache)
    (req : CreateUserRequest) : UserOut :=
  let t0 := [Ev.storeGetByEmail req.email]
  match repoUserGetByEmail env.userGetByEmailFails rows req.email with
  | .ok _ => ⟨.error .emailExists, rows, cache, t0⟩
  | .error _ =>
    let user : User :=
      { id := 0, name := req.name, email := req.email
        password := bcryptHash req.password, age := req.age }
    match repoUserCreate env.userCreateFails rows user with
    | .error e => ⟨.error (.store e), rows, cache, t0 ++ [Ev.storeCreate "users" false]⟩
    | .ok (rows1, assigned) =>
      let cache1 := cacheDelKey cache "users:list:*"
      ⟨.ok assigned, rows1, cache1,
        t0 ++ [Ev.storeCreate "users" true, Ev.cacheDelEv "users:list:*"]⟩

/-- The store fall-through of userService.GetByID: read the row, then
best-effort cache the serialized result with a 5-minute TTL (the Set
error is ignored). -/
def userServiceGetFromStore (env : FaultEnv) (rows : List (Nat × User)) (cache : Cache)
    (id : Nat) (cacheKey : String) (t0 : List Ev) : UserOut :=
  match repoUserGetByID env.userGetFails rows id with
  | .error e => ⟨.error (.store e), rows, cache, t0 ++ [Ev.storeGetByID "users" id]⟩
  | .ok u =>
    if env.cacheSetOk then
      ⟨.ok u, rows, cacheStore cache cacheKey (jsonMarshalUser u) 300,
        t0 ++ [Ev.storeGetByID "users" id, Ev.cacheSetEv cacheKey 300]⟩
    else
      ⟨.ok u, rows, cache, t0 ++ [Ev.storeGetByID "users" id]⟩

/-- userService.GetByID (service/user.go): cache lookup under
`"user:<id>"`; on a hit that unmarshals, return it without touching the
store; otherwise fall through to the store. -/
def userServiceGetByID (env : FaultEnv) (rows : List (Nat × User)) (cache : Cache)
    (id : Nat) : UserOut :=
  let cacheKey := "user:" ++ Nat.repr id
  let t0 := [Ev.cacheGetEv cacheKey]
  match cacheFetch cache cacheKey with
  | some cached =>
    match jsonUnmarshalUser cached with
    | some u => ⟨.ok u, rows, cache, t0⟩
    | none => userServiceGetFromStore env rows cache id cacheKey t0
  | none => userServiceGetFromStore env rows cache id cacheKey t0

/-- Tail of userService.Update after the patched row is computed: write
the row back to the store, then DEL the single-entity key and DEL the
literal key `"users:list:*"`. -/
def userServiceUpdateCommit (env : FaultEnv) (rows : List (Nat × User)) (cache : Cache)
    (id : Nat) (user : User) (tr : List Ev) : UserOut :=
  match repoUserUpdate env.userUpdateFails rows user with
  | .error e => ⟨.error (.store e), rows, cache, tr ++ [Ev.storeUpdate "users" id false]⟩
  | .ok rows1 =>
    let cacheKey := "user:" ++ Nat.repr id
    let cache1 := cacheDelKey cache cacheKey
    let cache2 := cacheDelKey cache1 "users:list:*"
    ⟨.ok user, rows1, cache2,
      tr ++ [Ev.storeUpdate "users" id true, Ev.cacheDelEv cacheKey,
        Ev.cacheDelEv "users:list:*"]⟩

/-- Password and age branches of userService.Update, then the commit. -/
def userServiceUpdateFinish (env : FaultEnv) (rows : List (Nat × User)) (cache : Cache)
    (id : Nat) (user : User) (req : UpdateUserRequest) (tr : List Ev) : UserOut :=
  let user1 := if req.password != "" then { user with password := bcryptHash req.password } else user
  let user2 := if req.age > 0 then { user1 with age := req.age } else user1
  userServiceUpdateCommit env rows cache id user2 tr

/-- userService.Update (service/user.go): read the current row from the
store, apply the non-zero patch fields (with the email-uniqueness check),
write back, then invalidate.  A patch field equal to its zero value is
skipped. -/
def userServiceUpdate (env : FaultEnv) (rows : List (Nat × User)) (cache : Cache)
    (id : Nat) (req : UpdateUserRequest) : UserOut :=
  match repoUserGetByID env.userGetFails rows id with
  | .error e => ⟨.error (.store e), rows, cache, [Ev.storeGetByID "users" id]⟩
  | .ok u0 =>
    let tr := [Ev.storeGetByID "users" id]
    let u1 := if req.name != "" then { u0 with name := req.name } else u0
    if req.email != "" then
      let tr1 := tr ++ [Ev.storeGetByEmail req.email]
      match repoUserGetByEmail env.userGetByEmailFails rows req.email with
      | .ok existing =>
        if existing.id != id then
          ⟨.error .emailExists, rows, cache, tr1⟩
        else
          userServiceUpdateFinish env rows cache id { u1 with email := req.email } req tr1
      | .error _ =>
        userServiceUpdateFinish env rows cache id { u1 with email := req.email } req tr1
    else
      userServiceUpdateFinish env rows cache id u1 req tr

/-- Tail of userService.Delete after the existence check: store delete,
then DEL the single-entity key and DEL the literal key
`"users:list:*"`. -/
def userServiceDeleteCommit (env : FaultEnv) (rows : List (Nat × User)) (cache : Cache)
    (id : Nat) (tr : List Ev) : UserDelOut :=
  match repoUserDelete env.userDeleteFails rows id with
  | .error e => ⟨.error (.store e), rows, cache, tr ++ [Ev.storeDelete "users" id false]⟩
  | .ok rows1 =>
    let cacheKey := "user:" ++ Nat.repr id
    let cache1 := cacheDelKey cache cacheKey
    let cache2 := cacheDelKey cache1 "users:list:*"
    ⟨.ok (), rows1, cache2,
      tr ++ [Ev.storeDelete "users" id true, Ev.cacheDelEv cacheKey,
        Ev.cacheDelEv "users:list:*"]⟩

/-- userService.Delete (service/user.go): existence check, then the
delete-and-invalidate tail. -/
def userServiceDelete (env : FaultEnv) (rows : List (Nat × User)) (cache : Cache)
    (id : Nat) : UserDelOut :=
  match repoUserGetByID env.userGetFails rows id with
  | .error e => ⟨.error (.store e), rows, cache, [Ev.storeGetByID "users" id]⟩
  | .ok _ => userServiceDeleteCommit env rows cache id [Ev.storeGetByID "users" id]

/-- internal/repository/user.go List: offset/limit page of the table. -/
def repoUserList (failing : Bool) (rows : List (Nat × User)) (offset limit : Nat) :
    Except StoreErr (List User) :=
  if failing then .error .internalErr
  else .ok (((rows.map Prod.snd).drop offset).take limit)

/-- internal/repository/user.go Count. -/
def repoUserCount (failing : Bool) (rows : List (Nat × User)) : Except StoreErr Int :=
  if failing then .error .internalErr
  else .ok (rows.length : Int)

/-- userService.List (service/user.go): clamp page and pageSize, then
read the page and the total from the store (no caching). -/
def userServiceList (env : FaultEnv) (rows : List (Nat × User))
    (page pageSize : Int) : Except SvcErr (List User × Int) × List Ev :=
  let page1 := if page < 1 then 1 else page
  let pageSize1 := if pageSize < 1 then 10 else pageSize
  let pageSize2 := if pageSize1 > 100 then 100 else pageSize1
  let offset := (page1 - 1) * pageSize2
  match repoUserList env.userListFails rows offset.toNat pageSize2.toNat with
  | .error e => (.error (.store e), [Ev.storeList "users"])
  | .ok users =>
    match repoUserCount env.userCountFails rows with
    | .error e => (.error (.store e), [Ev.storeList "users", Ev.storeCount "users"])
    | .ok total => (.ok (users, total), [Ev.storeList "users", Ev.storeCount "users"])

/-- The list-family invalidation of the product service: KEYS on the glob
`"products:list:*"`, then a bulk DEL of every match (skipped when there
are none).  Returns the new cache and the events emitted. -/
def productListInvalidate (cache : Cache) : Cache × List Ev :=
  let ks := cacheKeysMatching cache "products:list:*"
  if ks.isEmpty then
    (cache, [Ev.cacheKeysEv "products:list:*"])
  else
    (cacheDelKeys cache ks, [Ev.cacheKeysEv "products:list:*", Ev.cacheDelManyEv ks])

/-- productService.Create (service/product.go): store insert, then
enumerate-and-delete the product list family. -/
def productServiceCreate (env : FaultEnv) (rows : List (Nat × Product)) (cache : Cache)
    (req : CreateProductRequest) : ProductOut :=
  let product : Product :=
    { id := 0, name := req.name, description := req.description
      price := req.price, stock := req.stock }
  match repoProductCreate env.productCreateFails rows product with
  | .error e => ⟨.error (.store e), rows, cache, [Ev.storeCreate "products" false]⟩
  | .ok (rows1, assigned) =>
    let inv := productListInvalidate cache
    ⟨.ok assigned, rows1, inv.1, [Ev.storeCreate "products" true] ++ inv.2⟩

/-- The store fall-through of productService.GetByID. -/
def productServiceGetFromStore (env : FaultEnv) (rows : List (Nat × Product)) (cache : Cache)
    (id : Nat) (cacheKey : String) (t0 : List Ev) : ProductOut :=
  match repoProductGetByID env.productGetFails rows id with
  | .error e => ⟨.error (.store e), rows, cache, t0 ++ [Ev.storeGetByID "products" id]⟩
  | .ok p =>
    if env.cacheSetOk then
      ⟨.ok p, rows, cacheStore cache cacheKey (jsonMarshalProduct p) 300,
        t0 ++ [Ev.storeGetByID "products" id, Ev.cacheSetEv cacheKey 300]⟩
    else
      ⟨.ok p, rows, cache, t0 ++ [Ev.storeGetByID "products" id]⟩

/-- productService.GetByID (service/product.go): cache lookup under
`"product:<id>"`, falling through to the store on a miss or on bytes that
fail to unmarshal. -/
def productServiceGetByID (env : FaultEnv) (rows : List (Nat × Product)) (cache : Cache)
    (id : Nat) : ProductOut :=
  let cacheKey := "product:" ++ Nat.repr id
  let t0 := [Ev.cacheGetEv cacheKey]
  match cacheFetch cache cacheKey with
  | some cached =>
    match jsonUnmarshalProduct cached with
    | some p => ⟨.ok p, rows, cache, t0⟩
    | none => productServiceGetFromStore env rows cache id cacheKey t0
  | none => productServiceGetFromStore env rows cache id cacheKey t0

/-- Tail of productService.Update after the patched row is computed:
write back, DEL the single-entity key, then enumerate-and-delete the list
family. -/
def productServiceUpdateCommit (env : FaultEnv) (rows : List (Nat × Product)) (cache : Cache)
    (id : Nat) (p : Product) (tr : List Ev) : ProductOut :=
  match repoProductUpdate env.productUpdateFails rows p with
  | .error e => ⟨.error (.store e), rows, cache, tr ++ [Ev.storeUpdate "products" id false]⟩
  | .ok rows1 =>
    let cacheKey := "product:" ++ Nat.repr id
    let cache1 := cacheDelKey cache cacheKey
    let inv := productListInvalidate cache1
    ⟨.ok p, rows1, inv.1,
      tr ++ [Ev.storeUpdate "products" id true, Ev.cacheDelEv cacheKey] ++ inv.2⟩

/-- productService.Update (service/product.go): read the current row from
the store, apply the patch (name and description when non-empty, price
when positive, stock when **non-negative** — the literal `req.Stock >= 0`
guard of the source), then the write-and-invalidate tail. -/
def productServiceUpdate (env : FaultEnv) (rows : List (Nat × Product)) (cache : Cache)
    (id : Nat) (req : UpdateProductRequest) : ProductOut :=
  match repoProductGetByID env.productGetFails rows id with
  | .error e => ⟨.error (.store e), rows, cache, [Ev.storeGetByID "products" id]⟩
  | .ok p0 =>
    let p1 := if req.name != "" then { p0 with name := req.name } else p0
    let p2 := if req.description != "" then { p1 with description := req.description } else p1
    let p3 := if req.price > 0 then { p2 with price := req.price } else p2
    let p4 := if req.stock >= 0 then { p3 with stock := req.stock } else p3
    productServiceUpdateCommit env rows cache id p4 [Ev.storeGetByID "products" id]

/-- Tail of productService.Delete after the existence check: store
delete, DEL the single-entity key, then enumerate-and-delete the list
family. -/
def productServiceDeleteCommit (env : FaultEnv) (rows : List (Nat × Product)) (cache : Cache)
    (id : Nat) (tr : List Ev) : ProductDelOut :=
  match repoProductDelete env.productDeleteFails rows id with
  | .error e => ⟨.error (.store e), rows, cache, tr ++ [Ev.storeDelete "products" id false]⟩
  | .ok rows1 =>
    let cacheKey := "product:" ++ Nat.repr id
    let cache1 := cacheDelKey cache cacheKey
    let inv := productListInvalidate cache1
    ⟨.ok (), rows1, inv.1,
      tr ++ [Ev.storeDelete "products" id true, Ev.cacheDelEv cacheKey] ++ inv.2⟩

/-- productService.Delete (service/product.go): existence check, then the
delete-and-invalidate tail. -/
def productServiceDelete (env : FaultEnv) (rows : List (Nat × Product)) (cache : Cache)
    (id : Nat) : ProductDelOut :=
  match repoProductGetByID env.productGetFails rows id with
  | .error e => ⟨.error (.store e), rows, cache, [Ev.storeGetByID "products" id]⟩
  | .ok _ => productServiceDeleteCommit env rows cache id [Ev.storeGetByID "products" id]

/-- internal/config: the JWT section. -/
structure JWTConfig where
  secret : String
  expirationHours : Int
  issuer : String
deriving DecidableEq, Repr

/-- internal/middleware/auth.go: the Claims structure embedded in every
token (times are unix seconds). -/
structure SessionClaims where
  userID : Nat
  email : String
  expiresAt : Nat
  issuedAt : Nat
  notBefore : Nat
  issuer : String
deriving DecidableEq, Repr

/-- JWT signing algorithms relevant to the middleware: the symmetric HMAC
family, an asymmetric algorithm, and the unsigned marker. -/
inductive Alg where
  | hs256
  | hs384
  | hs512
  | rs256
  | algNone
deriving DecidableEq, Repr

/-- The type switch `token.Method.(*jwt.SigningMethodHMAC)` of the
middleware keyfunc: any HMAC-family algorithm passes. -/
def Alg.isHMAC : Alg → Bool
  | .hs256 => true
  | .hs384 => true
  | .hs512 => true
  | _ => false

/-- The `alg` header value. -/
def algName : Alg → String
  | .hs256 => "HS256"
  | .hs384 => "HS384"
  | .hs512 => "HS512"
  | .rs256 => "RS256"
  | .algNone => "none"

/-- The signing input of a token: the serialized claims. -/
def encodeClaims (c : SessionClaims) : String :=
  c.email ++ "|" ++ c.issuer ++ "|" ++ Nat.repr c.userID ++ "|" ++
    Nat.repr c.expiresAt ++ "|" ++ Nat.repr c.issuedAt ++ "|" ++ Nat.repr c.notBefore

/-- The symbolic MAC: the signature bytes produced by signing `payload`
with `secret` under `alg`.  Verification succeeds exactly when the
presented signature equals this value. -/
def hmacSign (secret : String) (alg : Alg) (payload : String) : String :=
  "HMAC|" ++ algName alg ++ "|" ++ secret ++ "|" ++ payload

/-- A decoded JWT: header algorithm, claims and signature bytes. -/
structure Token where
  alg : Alg
  claims : SessionClaims
  sig : String
deriving DecidableEq, Repr

/-- GenerateToken (internal/middleware/auth.go): claims with
`iat = nbf = now` and `exp = now + hours·3600`, where a configured
`ExpirationHours <= 0` defaults to 24; signed with HS256 under the
configured secret. -/
def generateToken (cfg : JWTConfig) (userID : Nat) (email : String) (now : Nat) : Token :=
  let hours : Int := if cfg.expirationHours ≤ 0 then 24 else cfg.expirationHours
  let claims : SessionClaims :=
    { userID := userID, email := email
      expiresAt := now + hours.toNat * 3600
      issuedAt := now, notBefore := now, issuer := cfg.issuer }
  { alg := .hs256, claims := claims
    sig := hmacSign cfg.secret .hs256 (encodeClaims claims) }

/-- jwt.ParseWithClaims with the middleware keyfunc, under the default
golang-jwt v5 validation: reject when the algorithm is not in the HMAC
family, when the signature does not verify against the configured secret,
when `now >= exp`, or when `now < nbf` (zero leeway; `iat` is not
validated by default).  On success the embedded claims are returned
unchanged. -/
def validateToken (secret : String) (now : Nat) (t : Token) : Option SessionClaims :=
  if !t.alg.isHMAC then none
  else if t.sig != hmacSign secret t.alg (encodeClaims t.claims) then none
  else if t.claims.expiresAt ≤ now then none
  else if now < t.claims.notBefore then none
  else some t.claims

/-- Splits a character list at the first space, if any. -/
def splitAtFirstSpace : List Char → List Char × Option (List Char)
  | [] => ([], none)
  | c :: rest =>
    if c == ' ' then ([], some rest)
    else
      let (a, b) := splitAtFirstSpace rest
      (c :: a, b)

/-- strings.SplitN(s, " ", 2). -/
def splitN2 (s : String) : List String :=
  match splitAtFirstSpace s.data with
  | (a, none) => [String.mk a]
  | (a, some b) => [String.mk a, String.mk b]

/-- strings.EqualFold, restricted to the ASCII folding the scheme check
needs. -/
def equalFold (a b : String) : Bool :=
  a.data.map Char.toLower == b.data.map Char.toLower

/-- Outcome of the JWTAuth middleware on one request: an aborted request
with the outward HTTP status and response message, or a pass-through with
the claims stored in the request context. -/
inductive AuthOutcome where
  | rejected (status : Nat) (message : String)
  | authorized (claims : SessionClaims)
deriving DecidableEq, Repr

/-- JWTAuth (internal/middleware/auth.go): read the Authorization header
(absent reads as `""`), check the `Bearer <token>` shape case-insensitively,
then decode and validate the token.  Every rejection is sent to the client
as a 401 response whose body carries the branch's message.  `decode`
stands for the wire decoding of the compact JWT form, which the repository
delegates to the jwt library; an undecodable string is a parse error and
takes the same rejection branch as a failed validation. -/
def jwtAuthMw (decode : String → Option Token) (cfg : JWTConfig) (now : Nat)
    (authHeader : String) : AuthOutcome :=
  if authHeader == "" then
    .rejected 401 "authorization header is required"
  else
    let parts := splitN2 authHeader
    if parts.length != 2 || !equalFold (parts.headD "") "Bearer" then
      .rejected 401 "invalid authorization header format"
    else
      let tokenString := parts.getD 1 ""
      match decode tokenString with
      | none => .rejected 401 "invalid or expired token"
      | some tok =>
        match validateToken cfg.secret now tok with
        | none => .rejected 401 "invalid or expired token"
        | some claims => .authorized claims

/-- Whether the middleware aborted the request. -/
def AuthOutcome.isRejection : AuthOutcome → Bool
  | .rejected _ _ => true
  | .authorized _ => false

/-- The data payload of a handler response (pkg/response: the `data`
field of the response envelope). -/
inductive RespData where
  | noData
  | userData (u : User)
  | userPageData (users : List User) (total : Int) (page pageSize : Int)
deriving DecidableEq, Repr

/-- The response envelope sent to the client (pkg/response/response.go):
HTTP status, body code, body message, body data. -/
structure HttpResponse where
  status : Nat
  code : Nat
  message : String
  data : RespData
deriving DecidableEq, Repr

/-- response.Success. -/
def respSuccess (d : RespData) : HttpResponse := ⟨200, 0, "success", d⟩

/-- response.InternalServerError. -/
def respInternalServerError (msg : String) : HttpResponse := ⟨500, 500, msg, .noData⟩

/-- response.NotFound. -/
def respNotFound (msg : String) : HttpResponse := ⟨404, 404, msg, .noData⟩

/-- err.Error() for the service errors the user handlers forward. -/
def svcErrMessage : SvcErr → String
  | .emailExists => "email already exists"
  | .store .recordNotFound => "record not found"
  | .store .internalErr => "database error"

/-- UserHandler.CreateUser (handler/user.go) after a successful JSON
bind: call the service and, on success, blank the password before
responding. -/
def userHandlerCreateUser (env : FaultEnv) (rows : List (Nat × User)) (cache : Cache)
    (req : CreateUserRequest) : HttpResponse :=
  match (userServiceCreate env rows cache req).result with
  | .error e => respInternalServerError (svcErrMessage e)
  | .ok u => respSuccess (.userData { u with password := "" })

/-- UserHandler.GetUser (handler/user.go) after a successful id parse:
call the service and, on success, blank the password before
responding. -/
def userHandlerGetUser (env : FaultEnv) (rows : List (Nat × User)) (cache : Cache)
    (id : Nat) : HttpResponse :=
  match (userServiceGetByID env rows cache id).result with
  | .error _ => respNotFound "user not found"
  | .ok u => respSuccess (.userData { u with password := "" })

/-- UserHandler.ListUsers (handler/user.go): call the service and blank
the password of every listed user before responding. -/
def userHandlerListUsers (env : FaultEnv) (rows : List (Nat × User))
    (page pageSize : Int) : HttpResponse :=
  match (userServiceList env rows page pageSize).1 with
  | .error e => respInternalServerError (svcErrMessage e)
  | .ok (users, total) =>
    respSuccess (.userPageData (users.map (fun u => { u with password := "" })) total page pageSize)

/-- UserHandler.UpdateUser (handler/user.go) after a successful id parse
and JSON bind: call the service and, on success, blank the password
before responding. -/
def userHandlerUpdateUser (env : FaultEnv) (rows : List (Nat × User)) (cache : Cache)
    (id : Nat) (req : UpdateUserRequest) : HttpResponse :=
  match (userServiceUpdate env rows cache id req).result with
  | .error e => respInternalServerError (svcErrMessage e)
  | .ok u => respSuccess (.userData { u with password := "" })

/-- Every user entity carried in a response body. -/
def respUsers : RespData → List User
  | .noData => []
  | .userData u => [u]
  | .userPageData us _ _ _ => us

/-! Concrete fixtures used by the theorems below. -/

/-- A run with no injected store failures and an effective cache write. -/
def envAllOk : FaultEnv :=
  ⟨false, false, false, false, false, false, false, false, false, false, false, true⟩

/-- A run in which every store call fails with a database error. -/
def envAllFail : FaultEnv :=
  ⟨true, true, true, true, true, true, true, true, true, true, true, true⟩

/-- A cache already holding a user list page, as an existing cache
population under the documented key format would. -/
def staleUserListCache : Cache :=
  [("users:list:1:10", ⟨.malformed "pre-mutation page", 300⟩)]

/-- A well-formed create request. -/
def aliceReq : CreateUserRequest := ⟨"Alice", "a@b.com", "secret123", 30⟩

/-- C1: for the user entity type the source runs `DEL users:list:*`,
which Redis treats as a literal key; a populated list key matching the
glob survives userService.Create, so the list family is not invalidated.
This evaluation shows a successful Create after which the previously
cached key `"users:list:1:10"` — which matches the glob — is still
present. -/
theorem userCreate_leaves_matching_list_key :
    globMatch "users:list:*".data "users:list:1:10".data = true ∧
    (userServiceCreate envAllOk [] staleUserListCache aliceReq).result =
      .ok { id := 1, name := "Alice", email := "a@b.com"
            password := "bcrypt$secret123", age := 30 } ∧
    cacheFetch (userServiceCreate envAllOk [] staleUserListCache aliceReq).cache
      "users:list:1:10" = some (.malformed "pre-mutation page") := by
  decide

/-- The stored product row for the C2 evaluation. -/
def widgetRows : List (Nat × Product) := [(1, ⟨1, "Widget", "gadget", 5, 7⟩)]

/-- A patch whose every field is the Go zero value (exactly what an
update request that omits all fields decodes to). -/
def zeroProductPatch : UpdateProductRequest := ⟨"", "", 0, 0⟩

/-- C2: the product stock branch tests `req.Stock >= 0`, so a patch whose
stock is the zero value 0 is applied rather than skipped: updating the
stored stock 7 with the all-zero patch resets the stock to 0, while every
other field is left unchanged as the convention demands. -/
theorem productUpdate_applies_zero_stock :
    storeLookup widgetRows 1 = some { id := 1, name := "Widget", description := "gadget"
                                      price := 5, stock := 7 } ∧
    (productServiceUpdate envAllOk widgetRows [] 1 zeroProductPatch).result =
      .ok { id := 1, name := "Widget", description := "gadget", price := 5, stock := 0 } := by
  decide

/-- Store and cache state for the C6 evaluation: user 1 exists, its
single-entity key is cached, and a glob-matching list key is populated. -/
def c6Rows : List (Nat × User) := [(1, ⟨1, "A", "a@b.com", "h", 20⟩)]

/-- Cache for the C6 evaluation. -/
def c6Cache : Cache :=
  [("user:1", ⟨.userJson ⟨1, "A", "a@b.com", "h", 20⟩, 300⟩),
   ("users:list:1:10", ⟨.malformed "pre-mutation page", 300⟩)]

/-- A rename-only patch. -/
def renamePatch : UpdateUserRequest := ⟨"B", "", "", 0⟩

/-- C6: a successful userService.Update reads the row from the store,
writes it back before any cache deletion, and deletes the single-entity
key — but the list family survives: the glob-matching key
`"users:list:1:10"` is still cached afterwards because the source only
DELs the literal key `"users:list:*"`.  The trace shows the full order of
operations. -/
theorem userUpdate_leaves_list_family :
    (userServiceUpdate envAllOk c6Rows c6Cache 1 renamePatch).result =
      .ok { id := 1, name := "B", email := "a@b.com", password := "h", age := 20 } ∧
    cacheFetch (userServiceUpdate envAllOk c6Rows c6Cache 1 renamePatch).cache "user:1" =
      none ∧
    globMatch "users:list:*".data "users:list:1:10".data = true ∧
    cacheFetch (userServiceUpdate envAllOk c6Rows c6Cache 1 renamePatch).cache
      "users:list:1:10" = some (.malformed "pre-mutation page") ∧
    (userServiceUpdate envAllOk c6Rows c6Cache 1 renamePatch).trace =
      [Ev.storeGetByID "users" 1, Ev.storeUpdate "users" 1 true,
       Ev.cacheDelEv "user:1", Ev.cacheDelEv "users:list:*"] := by
  decide

/-- A wire decoder under which no string decodes to a token (any decoder
works for the C3 counterexample: the two requests are rejected before or
at the decoding step). -/
def noTokenDecode : String → Option Token := fun _ => none

/-- A reference JWT configuration. -/
def jwtCfg : JWTConfig := ⟨"secret", 24, "iss"⟩

/-- C3 counterexample: a request with a missing Authorization header and
a request with a malformed bearer scheme are both rejected, yet their
outward responses differ (the response messages name the cause), so two
rejected requests are distinguishable by their outward response. -/
theorem authRejections_distinguishable :
    (jwtAuthMw noTokenDecode jwtCfg 0 "").isRejection = true ∧
    (jwtAuthMw noTokenDecode jwtCfg 0 "Basic abc").isRejection = true ∧
    jwtAuthMw noTokenDecode jwtCfg 0 "" ≠ jwtAuthMw noTokenDecode jwtCfg 0 "Basic abc" := by
  decide

/-- C3 amended: the three rejection causes — missing header, malformed
bearer scheme, failed token validation — all produce the same outward
Unauthorized status 401; the response message, however, differs by cause,
so rejected requests are distinguishable by the response body. -/
theorem authRejections_same_status (decode : String → Option Token) (cfg : JWTConfig)
    (now : Nat) (header : String) (s : Nat) (m : String)
    (h : jwtAuthMw decode cfg now header = .rejected s m) : s = 401 := by
  unfold jwtAuthMw at h
  split at h
  · injection h with h1 _; exact h1.symm
  · dsimp only at h
    split at h
    · injection h with h1 _; exact h1.symm
    · split at h
      · injection h with h1 _; exact h1.symm
      · split at h
        · injection h with h1 _; exact h1.symm
        · injection h

/-- C3 witness: the amended theorem applied to a concrete rejected
request. -/
theorem authRejections_same_status_witness :
    jwtAuthMw noTokenDecode jwtCfg 0 "" = .rejected 401 "authorization header is required" ∧
    401 = 401 :=
  ⟨by decide,
    authRejections_same_status noTokenDecode jwtCfg 0 "" 401
      "authorization header is required" (by decide)⟩

/-- C7: validating a freshly issued token at any time from issuance up to
(strictly before) its expiry returns the embedded claims unchanged, with
the subject id and email that were issued. -/
theorem token_round_trip (cfg : JWTConfig) (uid : Nat) (email : String)
    (tIssue tVal : Nat) (h1 : tIssue ≤ tVal)
    (h2 : tVal < (generateToken cfg uid email tIssue).claims.expiresAt) :
    validateToken cfg.secret tVal (generateToken cfg uid email tIssue) =
      some (generateToken cfg uid email tIssue).claims ∧
    (generateToken cfg uid email tIssue).claims.userID = uid ∧
    (generateToken cfg uid email tIssue).claims.email = email := by
  refine ⟨?_, rfl, rfl⟩
  have hnbf : (generateToken cfg uid email tIssue).claims.notBefore = tIssue := rfl
  have halg : (generateToken cfg uid email tIssue).alg = .hs256 := rfl
  have hsig : (generateToken cfg uid email tIssue).sig =
      hmacSign cfg.secret .hs256 (encodeClaims (generateToken cfg uid email tIssue).claims) := rfl
  unfold validateToken
  rw [halg, hsig]
  simp only [Alg.isHMAC, Bool.not_true, Bool.false_eq_true, if_false, bne_self_eq_false]
  rw [if_neg (by omega), if_neg (by omega)]

/-- C7 witness: the round trip at subject 42, email `a@b.com`, issued at
time 0 and validated at time 10, before the 24-hour expiry. -/
theorem token_round_trip_witness :
    validateToken jwtCfg.secret 10 (generateToken jwtCfg 42 "a@b.com" 0) =
      some (generateToken jwtCfg 42 "a@b.com" 0).claims ∧
    (generateToken jwtCfg 42 "a@b.com" 0).claims.userID = 42 ∧
    (generateToken jwtCfg 42 "a@b.com" 0).claims.email = "a@b.com" :=
  token_round_trip jwtCfg 42 "a@b.com" 0 10 (by decide) (by decide)

/-- Claims for the C8 counterexample token. -/
def hs384Claims : SessionClaims := ⟨7, "x@y.z", 1000, 0, 0, "iss"⟩

/-- A token signed with HS384 — not the HS256 the service issues — under
the configured secret. -/
def hs384Token : Token := ⟨.hs384, hs384Claims, hmacSign "secret" .hs384 (encodeClaims hs384Claims)⟩

/-- C8 counterexample: the service issues HS256 only, but its validation
accepts any HMAC-family algorithm: an HS384 token signed with the
configured key validates and returns claims, although its algorithm is
not the single fixed algorithm the service issues. -/
theorem validate_accepts_hs384 :
    (generateToken jwtCfg 1 "e" 0).alg = .hs256 ∧
    hs384Token.alg ≠ .hs256 ∧
    validateToken "secret" 500 hs384Token = some hs384Claims := by
  decide

/-- C8 amended: Validate rejects with no claims whenever the token's
algorithm is outside the symmetric HMAC family (rather than: differs from
the single issued algorithm), or the signature does not verify against
the configured key, or the current time is before not_before, or the
current time is at or past expires_at. -/
theorem validate_rejects (secret : String) (now : Nat) (t : Token)
    (h : t.alg.isHMAC = false ∨
         t.sig ≠ hmacSign secret t.alg (encodeClaims t.claims) ∨
         now < t.claims.notBefore ∨
         t.claims.expiresAt ≤ now) :
    validateToken secret now t = none := by
  unfold validateToken
  rcases h with h | h | h | h <;>
    · repeat' split
      all_goals simp_all

/-- An expired token: `expires_at = 5`, validated at time 100. -/
def expiredToken : Token :=
  ⟨.hs256, ⟨1, "e", 5, 0, 0, "i"⟩, hmacSign "k" .hs256 (encodeClaims ⟨1, "e", 5, 0, 0, "i"⟩)⟩

/-- C8 witness: the amended theorem rejecting a concrete expired
token. -/
theorem validate_rejects_witness : validateToken "k" 100 expiredToken = none :=
  validate_rejects "k" 100 expiredToken (Or.inr (Or.inr (Or.inr (by decide))))

/-- C4: for an id present in the store but absent from the cache, GetByID
returns the store's row and, when the best-effort cache write takes
effect, leaves the cache holding — under the `"<type>:<id>"` key — the
serialization of the returned entity with the fixed 300-second TTL; when
the cache write fails the returned value and the success of the read are
unchanged (and the cache is untouched).  The serialization round-trips to
the returned entity.  Both entity types behave identically. -/
theorem getByID_read_through (env : FaultEnv) (urows : List (Nat × User))
    (prows : List (Nat × Product)) (cache : Cache) (idU idP : Nat) (u : User) (p : Product)
    (hu : cacheFetch cache ("user:" ++ Nat.repr idU) = none)
    (hsu : storeLookup urows idU = some u)
    (hfu : env.userGetFails = false)
    (hp : cacheFetch cache ("product:" ++ Nat.repr idP) = none)
    (hsp : storeLookup prows idP = some p)
    (hfp : env.productGetFails = false) :
    ((userServiceGetByID env urows cache idU).result = .ok u ∧
     (env.cacheSetOk = true →
       cacheFetchEntry (userServiceGetByID env urows cache idU).cache
         ("user:" ++ Nat.repr idU) = some ⟨jsonMarshalUser u, 300⟩) ∧
     (env.cacheSetOk = false → (userServiceGetByID env urows cache idU).cache = cache) ∧
     jsonUnmarshalUser (jsonMarshalUser u) = some u) ∧
    ((productServiceGetByID env prows cache idP).result = .ok p ∧
     (env.cacheSetOk = true →
       cacheFetchEntry (productServiceGetByID env prows cache idP).cache
         ("product:" ++ Nat.repr idP) = some ⟨jsonMarshalProduct p, 300⟩) ∧
     (env.cacheSetOk = false → (productServiceGetByID env prows cache idP).cache = cache) ∧
     jsonUnmarshalProduct (jsonMarshalProduct p) = some p) := by
  have hru : repoUserGetByID env.userGetFails urows idU = .ok u := by
    simp [repoUserGetByID, hfu, hsu]
  have hrp : repoProductGetByID env.productGetFails prows idP = .ok p := by
    simp [repoProductGetByID, hfp, hsp]
  constructor
  · simp only [userServiceGetByID, hu]
    cases hcs : env.cacheSetOk <;>
      simp [userServiceGetFromStore, hru, hcs, cacheFetchEntry, cacheStore,
        jsonMarshalUser, jsonUnmarshalUser]
  · simp only [productServiceGetByID, hp]
    cases hcs : env.cacheSetOk <;>
      simp [productServiceGetFromStore, hrp, hcs, cacheFetchEntry, cacheStore,
        jsonMarshalProduct, jsonUnmarshalProduct]

/-- A user row used by concrete read witnesses. -/
def bobUser : User := ⟨1, "Bob", "b@c.de", "bcrypt$pw", 25⟩

/-- A product row used by concrete read witnesses. -/
def gizmoProduct : Product := ⟨2, "Gizmo", "thing", 9, 3⟩

/-- C4 witness: the read-through theorem at user id 1 and product id 2 on
an empty cache. -/
theorem getByID_read_through_witness :
    ((userServiceGetByID envAllOk [(1, bobUser)] [] 1).result = .ok bobUser ∧
     (envAllOk.cacheSetOk = true →
       cacheFetchEntry (userServiceGetByID envAllOk [(1, bobUser)] [] 1).cache
         ("user:" ++ Nat.repr 1) = some ⟨jsonMarshalUser bobUser, 300⟩) ∧
     (envAllOk.cacheSetOk = false →
       (userServiceGetByID envAllOk [(1, bobUser)] [] 1).cache = []) ∧
     jsonUnmarshalUser (jsonMarshalUser bobUser) = some bobUser) ∧
    ((productServiceGetByID envAllOk [(2, gizmoProduct)] [] 2).result = .ok gizmoProduct ∧
     (envAllOk.cacheSetOk = true →
       cacheFetchEntry (productServiceGetByID envAllOk [(2, gizmoProduct)] [] 2).cache
         ("product:" ++ Nat.repr 2) = some ⟨jsonMarshalProduct gizmoProduct, 300⟩) ∧
     (envAllOk.cacheSetOk = false →
       (productServiceGetByID envAllOk [(2, gizmoProduct)] [] 2).cache = []) ∧
     jsonUnmarshalProduct (jsonMarshalProduct gizmoProduct) = some gizmoProduct) :=
  getByID_read_through envAllOk [(1, bobUser)] [(2, gizmoProduct)] [] 1 2 bobUser gizmoProduct
    (by decide) (by decide) (by decide) (by decide) (by decide) (by decide)

/-- C5: when the cached bytes under the entity's key fail to deserialize,
GetByID behaves as on a miss: its result is exactly the store read's
result (the store value when the entity exists, the store's error
otherwise — never the deserialization failure), and the trace shows the
fall-through to the store.  Both entity types behave identically. -/
theorem getByID_corrupt_entry_falls_through (env : FaultEnv) (urows : List (Nat × User))
    (prows : List (Nat × Product)) (cache : Cache) (idU idP : Nat) (bu bp : CacheVal)
    (hu : cacheFetch cache ("user:" ++ Nat.repr idU) = some bu)
    (hmu : jsonUnmarshalUser bu = none)
    (hp : cacheFetch cache ("product:" ++ Nat.repr idP) = some bp)
    (hmp : jsonUnmarshalProduct bp = none) :
    ((userServiceGetByID env urows cache idU).result =
        Except.mapError SvcErr.store (repoUserGetByID env.userGetFails urows idU) ∧
      Ev.storeGetByID "users" idU ∈ (userServiceGetByID env urows cache idU).trace) ∧
    ((productServiceGetByID env prows cache idP).result =
        Except.mapError SvcErr.store (repoProductGetByID env.productGetFails prows idP) ∧
      Ev.storeGetByID "products" idP ∈ (productServiceGetByID env prows cache idP).trace) := by
  constructor
  · simp only [userServiceGetByID, hu, hmu]
    cases hr : repoUserGetByID env.userGetFails urows idU <;>
      cases hcs : env.cacheSetOk <;>
        simp [userServiceGetFromStore, hr, hcs, Except.mapError]
  · simp only [productServiceGetByID, hp, hmp]
    cases hr : repoProductGetByID env.productGetFails prows idP <;>
      cases hcs : env.cacheSetOk <;>
        simp [productServiceGetFromStore, hr, hcs, Except.mapError]

/-- A cache whose entries under both entity keys are malformed bytes. -/
def corruptCache : Cache :=
  [("user:1", ⟨.malformed "not json", 300⟩), ("product:2", ⟨.malformed "truncated-json", 300⟩)]

/-- C5 witness: the corruption-fallback theorem on a cache holding
malformed bytes for user 1 and product 2, both present in the store. -/
theorem getByID_corrupt_entry_falls_through_witness :
    ((userServiceGetByID envAllOk [(1, bobUser)] corruptCache 1).result =
        Except.mapError SvcErr.store (repoUserGetByID envAllOk.userGetFails [(1, bobUser)] 1) ∧
      Ev.storeGetByID "users" 1 ∈ (userServiceGetByID envAllOk [(1, bobUser)] corruptCache 1).trace) ∧
    ((productServiceGetByID envAllOk [(2, gizmoProduct)] corruptCache 2).result =
        Except.mapError SvcErr.store
          (repoProductGetByID envAllOk.productGetFails [(2, gizmoProduct)] 2) ∧
      Ev.storeGetByID "products" 2 ∈
        (productServiceGetByID envAllOk [(2, gizmoProduct)] corruptCache 2).trace) :=
  getByID_corrupt_entry_falls_through envAllOk [(1, bobUser)] [(2, gizmoProduct)] corruptCache
    1 2 (.malformed "not json") (.malformed "truncated-json")
    (by decide) (by decide) (by decide) (by decide)

/-- Whether a service call failed. -/
def svcFailed {α : Type} : Except SvcErr α → Bool
  | .ok _ => false
  | .error _ => true

/-- A failed update commit leaves the cache untouched and appends only
the failed store-update event. -/
theorem userUpdateCommit_error (env : FaultEnv) (rows : List (Nat × User)) (cache : Cache)
    (id : Nat) (user : User) (tr : List Ev) :
    svcFailed (userServiceUpdateCommit env rows cache id user tr).result = true →
    (userServiceUpdateCommit env rows cache id user tr).cache = cache ∧
    (userServiceUpdateCommit env rows cache id user tr).trace =
      tr ++ [Ev.storeUpdate "users" id false] := by
  unfold userServiceUpdateCommit
  cases h : repoUserUpdate env.userUpdateFails rows user <;> simp [svcFailed]

/-- A failed user delete commit leaves the cache untouched and appends
only the failed store-delete event. -/
theorem userDeleteCommit_error (env : FaultEnv) (rows : List (Nat × User)) (cache : Cache)
    (id : Nat) (tr : List Ev) :
    svcFailed (userServiceDeleteCommit env rows cache id tr).result = true →
    (userServiceDeleteCommit env rows cache id tr).cache = cache ∧
    (userServiceDeleteCommit env rows cache id tr).trace =
      tr ++ [Ev.storeDelete "users" id false] := by
  unfold userServiceDeleteCommit
  cases h : repoUserDelete env.userDeleteFails rows id <;> simp [svcFailed]

/-- A failed product update commit leaves the cache untouched and appends
only the failed store-update event. -/
theorem productUpdateCommit_error (env : FaultEnv) (rows : List (Nat × Product)) (cache : Cache)
    (id : Nat) (p : Product) (tr : List Ev) :
    svcFailed (productServiceUpdateCommit env rows cache id p tr).result = true →
    (productServiceUpdateCommit env rows cache id p tr).cache = cache ∧
    (productServiceUpdateCommit env rows cache id p tr).trace =
      tr ++ [Ev.storeUpdate "products" id false] := by
  unfold productServiceUpdateCommit
  cases h : repoProductUpdate env.productUpdateFails rows p <;> simp [svcFailed]

/-- A failed product delete commit leaves the cache untouched and appends
only the failed store-delete event. -/
theorem productDeleteCommit_error (env : FaultEnv) (rows : List (Nat × Product)) (cache : Cache)
    (id : Nat) (tr : List Ev) :
    svcFailed (productServiceDeleteCommit env rows cache id tr).result = true →
    (productServiceDeleteCommit env rows cache id tr).cache = cache ∧
    (productServiceDeleteCommit env rows cache id tr).trace =
      tr ++ [Ev.storeDelete "products" id false] := by
  unfold productServiceDeleteCommit
  cases h : repoProductDelete env.productDeleteFails rows id <;> simp [svcFailed]

/-- On any failed outcome, userService.Update leaves the cache as it was
and performs no cache deletion. -/
theorem userUpdate_error_no_invalidation (env : FaultEnv) (rows : List (Nat × User))
    (cache : Cache) (id : Nat) (req : UpdateUserRequest) :
    svcFailed (userServiceUpdate env rows cache id req).result = true →
    (userServiceUpdate env rows cache id req).cache = cache ∧
    (userServiceUpdate env rows cache id req).trace.all (fun ev => !ev.isCacheDelete) = true := by
  unfold userServiceUpdate userServiceUpdateFinish
  repeat' split
  all_goals intro h
  all_goals
    first
      | (obtain ⟨hc, ht⟩ := userUpdateCommit_error _ _ _ _ _ _ h
         rw [hc, ht]
         simp [Ev.isCacheDelete])
      | simp_all [svcFailed, Ev.isCacheDelete]

/-- On any failed outcome, userService.Delete leaves the cache as it was
and performs no cache deletion. -/
theorem userDelete_error_no_invalidation (env : FaultEnv) (rows : List (Nat × User))
    (cache : Cache) (id : Nat) :
    svcFailed (userServiceDelete env rows cache id).result = true →
    (userServiceDelete env rows cache id).cache = cache ∧
    (userServiceDelete env rows cache id).trace.all (fun ev => !ev.isCacheDelete) = true := by
  unfold userServiceDelete
  repeat' split
  all_goals intro h
  all_goals
    first
      | (obtain ⟨hc, ht⟩ := userDeleteCommit_error _ _ _ _ _ h
         rw [hc, ht]
         simp [Ev.isCacheDelete])
      | simp_all [svcFailed, Ev.isCacheDelete]

/-- On any failed outcome, productService.Update leaves the cache as it
was and performs no cache deletion. -/
theorem productUpdate_error_no_invalidation (env : FaultEnv) (rows : List (Nat × Product))
    (cache : Cache) (id : Nat) (req : UpdateProductRequest) :
    svcFailed (productServiceUpdate env rows cache id req).result = true →
    (productServiceUpdate env rows cache id req).cache = cache ∧
    (productServiceUpdate env rows cache id req).trace.all (fun ev => !ev.isCacheDelete) = true := by
  unfold productServiceUpdate
  repeat' split
  all_goals intro h
  all_goals
    first
      | (obtain ⟨hc, ht⟩ := productUpdateCommit_error _ _ _ _ _ _ h
         rw [hc, ht]
         simp [Ev.isCacheDelete])
      | simp_all [svcFailed, Ev.isCacheDelete]

/-- On any failed outcome, productService.Delete leaves the cache as it
was and performs no cache deletion. -/
theorem productDelete_error_no_invalidation (env : FaultEnv) (rows : List (Nat × Product))
    (cache : Cache) (id : Nat) :
    svcFailed (productServiceDelete env rows cache id).result = true →
    (productServiceDelete env rows cache id).cache = cache ∧
    (productServiceDelete env rows cache id).trace.all (fun ev => !ev.isCacheDelete) = true := by
  unfold productServiceDelete
  repeat' split
  all_goals intro h
  all_goals
    first
      | (obtain ⟨hc, ht⟩ := productDeleteCommit_error _ _ _ _ _ h
         rw [hc, ht]
         simp [Ev.isCacheDelete])
      | simp_all [svcFailed, Ev.isCacheDelete]

/-- C9: Update and Delete are atomic with respect to the cache on
failure: whenever the operation returns an error — in particular whenever
the store read or the store mutation failed — the cache is exactly as
before the call and the interaction trace contains no cache deletion; the
single-entity key and the list family are only touched after the store
mutation has succeeded. -/
theorem mutations_error_leave_cache (env : FaultEnv) (urows : List (Nat × User))
    (prows : List (Nat × Product)) (cache : Cache) (idU idP : Nat)
    (ureq : UpdateUserRequest) (preq : UpdateProductRequest) :
    (svcFailed (userServiceUpdate env urows cache idU ureq).result = true →
      (userServiceUpdate env urows cache idU ureq).cache = cache ∧
      (userServiceUpdate env urows cache idU ureq).trace.all (fun ev => !ev.isCacheDelete) = true) ∧
    (svcFailed (userServiceDelete env urows cache idU).result = true →
      (userServiceDelete env urows cache idU).cache = cache ∧
      (userServiceDelete env urows cache idU).trace.all (fun ev => !ev.isCacheDelete) = true) ∧
    (svcFailed (productServiceUpdate env prows cache idP preq).result = true →
      (productServiceUpdate env prows cache idP preq).cache = cache ∧
      (productServiceUpdate env prows cache idP preq).trace.all (fun ev => !ev.isCacheDelete) = true) ∧
    (svcFailed (productServiceDelete env prows cache idP).result = true →
      (productServiceDelete env prows cache idP).cache = cache ∧
      (productServiceDelete env prows cache idP).trace.all (fun ev => !ev.isCacheDelete) = true) :=
  ⟨userUpdate_error_no_invalidation env urows cache idU ureq,
   userDelete_error_no_invalidation env urows cache idU,
   productUpdate_error_no_invalidation env prows cache idP preq,
   productDelete_error_no_invalidation env prows cache idP⟩

/-- C9 witness: with every store call failing, the four mutations on
populated caches return errors and the cache is untouched. -/
theorem mutations_error_leave_cache_witness :
    ((userServiceUpdate envAllFail [] staleUserListCache 1 renamePatch).cache =
        staleUserListCache ∧
      (userServiceUpdate envAllFail [] staleUserListCache 1 renamePatch).trace.all
        (fun ev => !ev.isCacheDelete) = true) ∧
    ((userServiceDelete envAllFail [] staleUserListCache 1).cache = staleUserListCache ∧
      (userServiceDelete envAllFail [] staleUserListCache 1).trace.all
        (fun ev => !ev.isCacheDelete) = true) ∧
    ((productServiceUpdate envAllFail [] staleUserListCache 2 zeroProductPatch).cache =
        staleUserListCache ∧
      (productServiceUpdate envAllFail [] staleUserListCache 2 zeroProductPatch).trace.all
        (fun ev => !ev.isCacheDelete) = true) ∧
    ((productServiceDelete envAllFail [] staleUserListCache 2).cache = staleUserListCache ∧
      (productServiceDelete envAllFail [] staleUserListCache 2).trace.all
        (fun ev => !ev.isCacheDelete) = true) :=
  ⟨(mutations_error_leave_cache envAllFail [] [] staleUserListCache 1 2 renamePatch
      zeroProductPatch).1 (by decide),
   (mutations_error_leave_cache envAllFail [] [] staleUserListCache 1 2 renamePatch
      zeroProductPatch).2.1 (by decide),
   (mutations_error_leave_cache envAllFail [] [] staleUserListCache 1 2 renamePatch
      zeroProductPatch).2.2.1 (by decide),
   (mutations_error_leave_cache envAllFail [] [] staleUserListCache 1 2 renamePatch
      zeroProductPatch).2.2.2 (by decide)⟩

/-- C10: no user handler ever responds with a password: every user entity
carried in the response body of CreateUser, GetUser, ListUsers and
UpdateUser has an empty password field, whatever (hashed) passwords the
store holds. -/
theorem userHandlers_scrub_password (env : FaultEnv) (rows : List (Nat × User))
    (cache : Cache) (creq : CreateUserRequest) (id : Nat) (ureq : UpdateUserRequest)
    (page pageSize : Int) :
    (respUsers (userHandlerCreateUser env rows cache creq).data).all
      (fun u => u.password == "") = true ∧
    (respUsers (userHandlerGetUser env rows cache id).data).all
      (fun u => u.password == "") = true ∧
    (respUsers (userHandlerListUsers env rows page pageSize).data).all
      (fun u => u.password == "") = true ∧
    (respUsers (userHandlerUpdateUser env rows cache id ureq).data).all
      (fun u => u.password == "") = true := by
  refine ⟨?_, ?_, ?_, ?_⟩
  · cases h : (userServiceCreate env rows cache creq).result <;>
      simp [userHandlerCreateUser, h, respSuccess, respInternalServerError, respUsers]
  · cases h : (userServiceGetByID env rows cache id).result <;>
      simp [userHandlerGetUser, h, respSuccess, respNotFound, respUsers]
  · cases h : (userServiceList env rows page pageSize).1 with
    | error e => simp [userHandlerListUsers, h, respInternalServerError, respUsers]
    | ok pr =>
      cases pr with
      | mk users total =>
        simp [userHandlerListUsers, h, respSuccess, respUsers, List.all_eq_true,
          List.mem_map]
  · cases h : (userServiceUpdate env rows cache id ureq).result <;>
      simp [userHandlerUpdateUser, h, respSuccess, respInternalServerError, respUsers]

end GoWeb
